import Mathlib

/-!
Verification development for `ipinfoio_bot.py`, a Telegram chat bot that
validates a user-supplied IP address, queries the ipinfo.io geolocation
service and formats the answer back to the user.

The embedding below follows the source file.  Pure computations (string
splitting, template rendering, record defaulting) become Lean functions;
each command handler becomes a function from its inputs to the list of
outbound effects it performs together with an optional uncaught Python
exception.  External collaborators that the source only calls (the
`ipaddress` standard-library parser, the aiotg dispatch loop, the HTTP
transport) are modelled from the specification, as marked on each such
definition.
-/

/-- Python `str.split(sep)` for a one-character separator: splits at every
occurrence of `sep`; the result is always non-empty and the empty string
splits to `[[]]`, exactly as in Python. -/
def pySplit (sep : Char) : List Char → List (List Char)
  | [] => [[]]
  | c :: cs =>
    if c = sep then
      [] :: pySplit sep cs
    else
      match pySplit sep cs with
      | [] => [[c]]
      | p :: ps => (c :: p) :: ps

def isDigitCh (c : Char) : Bool := '0' ≤ c && c ≤ '9'

def digitVal (c : Char) : Nat := c.toNat - '0'.toNat

def isHexDigitCh (c : Char) : Bool :=
  ('0' ≤ c && c ≤ '9') || ('a' ≤ c && c ≤ 'f') || ('A' ≤ c && c ≤ 'F')

def hexVal (c : Char) : Nat :=
  if c ≤ '9' then c.toNat - '0'.toNat
  else if c ≤ 'F' then c.toNat - 'A'.toNat + 10
  else c.toNat - 'a'.toNat + 10

/-- Modelled from the spec (§4.1): one dotted-quad octet of the standard
IPv4 literal syntax accepted by the `ipaddress` standard-library parser,
which is a collaborator outside this repository: one to three decimal
digits with value at most 255. -/
def parseOctet (l : List Char) : Option Nat :=
  if l.isEmpty || l.length > 3 || !(l.all isDigitCh) then none
  else
    let n := l.foldl (fun a c => 10 * a + digitVal c) 0
    if n > 255 then none else some n

/-- Modelled from the spec (§4.1): strict dotted-quad IPv4 literal parse
(no hostnames, no CIDR suffixes); yields the four octet values. -/
def parseIPv4 (l : List Char) : Option (List Nat) :=
  match pySplit '.' l with
  | [a, b, c, d] => do
      let a ← parseOctet a
      let b ← parseOctet b
      let c ← parseOctet c
      let d ← parseOctet d
      pure [a, b, c, d]
  | _ => none

/-- Modelled from the spec (§4.1): one hextet of the colon-hex IPv6
syntax, one to four hexadecimal digits. -/
def parseHextet (l : List Char) : Option Nat :=
  if l.isEmpty || l.length > 4 || !(l.all isHexDigitCh) then none
  else some (l.foldl (fun a c => 16 * a + hexVal c) 0)

/-- Modelled from the spec (§4.1): strict colon-hex IPv6 literal parse in
the shape of the `ipaddress` standard-library algorithm: split on every
colon, expand an embedded dotted-quad tail into two hextets, allow at most
one internal `::` compression, and require exactly eight hextets overall;
yields the eight hextet values. -/
def parseIPv6 (l : List Char) : Option (List Nat) :=
  let parts1 := pySplit ':' l
  if parts1.length < 3 then none
  else
    let expanded : Option (List (List Char)) :=
      match parts1.getLast? with
      | some last =>
        if last.contains '.' then
          match parseIPv4 last with
          | some [a, b, c, d] =>
              some (parts1.dropLast ++
                [Nat.toDigits 16 (a * 256 + b), Nat.toDigits 16 (c * 256 + d)])
          | _ => none
        else some parts1
      | none => none
    match expanded with
    | none => none
    | some parts =>
      if parts.length > 9 then none
      else
        let innerEmpties :=
          (List.range parts.length).filter fun i =>
            decide (0 < i) && decide (i + 1 < parts.length) && (parts.getD i ['x']).isEmpty
        match innerEmpties with
        | [] =>
            if parts.length ≠ 8 then none
            else if (parts.headD ['x']).isEmpty then none
            else if parts.getLast? = some [] then none
            else parts.mapM parseHextet
        | [i] =>
            let headEmpty := (parts.headD ['x']).isEmpty
            let lastEmpty := parts.getLast? = some []
            let pHi := if headEmpty then 0 else i
            let pLo0 := parts.length - i - 1
            let pLo := if lastEmpty then 0 else pLo0
            if headEmpty && i ≠ 1 then none
            else if lastEmpty && pLo0 ≠ 1 then none
            else if pHi + pLo ≥ 8 then none
            else do
              let hi ← (parts.take pHi).mapM parseHextet
              let lo ← (parts.drop (parts.length - pLo)).mapM parseHextet
              pure (hi ++ List.replicate (8 - (pHi + pLo)) 0 ++ lo)
        | _ :: _ :: _ => none

deriving instance DecidableEq for Except

/-- A validated IP address: the value produced by a successful parse. -/
inductive IPAddr
  | v4 (octets : List Nat)
  | v6 (hextets : List Nat)
  deriving DecidableEq

/-- Modelled from the spec (§4.1): `ipaddress.ip_address` — try the IPv4
literal syntax first, then IPv6; `none` models the `ValueError` raised on
strings that are neither. -/
def ip_address (s : String) : Option IPAddr :=
  match parseIPv4 s.toList with
  | some o => some (IPAddr.v4 o)
  | none =>
    match parseIPv6 s.toList with
    | some g => some (IPAddr.v6 g)
    | none => none

/-- Decimal rendering of a number, as Python `str` of an int. -/
def decStr (n : Nat) : String := String.mk (Nat.toDigits 10 n)

/-- Lowercase hexadecimal rendering without leading zeros, as Python `%x`. -/
def hexStr (n : Nat) : String := String.mk (Nat.toDigits 16 n)

/-- All maximal runs of the literal group "0" in a hextet list, as
(start index, length) pairs. -/
def zeroRuns : List String → Nat → List (Nat × Nat)
  | [], _ => []
  | s :: rest, i =>
    if s = "0" then
      match zeroRuns rest (i + 1) with
      | (j, l) :: more =>
          if j = i + 1 then (i, l + 1) :: more else (i, 1) :: (j, l) :: more
      | [] => [(i, 1)]
    else zeroRuns rest (i + 1)

/-- The leftmost longest zero run (start, length); (0, 0) when none. -/
def bestZeroRun (runs : List (Nat × Nat)) : Nat × Nat :=
  runs.foldl (fun b r => if r.2 > b.2 then r else b) (0, 0)

/-- Canonical textual form of an IPv6 address (RFC 5952, as produced by
Python `str` on an `IPv6Address`): lowercase hextets without leading
zeros, with the leftmost longest run of two or more zero hextets
compressed to `::`. -/
def ipStrV6 (hextets : List Nat) : String :=
  let hx := hextets.map hexStr
  let best := bestZeroRun (zeroRuns hx 0)
  if best.2 > 1 then
    String.intercalate ":" (hx.take best.1) ++ "::" ++
      String.intercalate ":" (hx.drop (best.1 + best.2))
  else
    String.intercalate ":" hx

/-- Canonical textual form of a validated address, as Python `str` on the
`IPv4Address` / `IPv6Address` object. -/
def ipStr : IPAddr → String
  | IPAddr.v4 o => String.intercalate "." (o.map decStr)
  | IPAddr.v6 g => ipStrV6 g

/-- A geolocation record: the flat string-valued JSON object returned by
the ipinfo.io service, as an association list. -/
abbrev Record := List (String × String)

/-- Python `dict` key lookup on a record (first binding wins). -/
def lookupRecord (r : Record) (k : String) : Option String :=
  match r with
  | [] => none
  | (k₁, v) :: rest => if k₁ = k then some v else lookupRecord rest k

/-- An uncaught Python exception escaping a handler. -/
inductive PyErr
  | keyError
  | indexError
  deriving DecidableEq

/-- One outbound side effect performed by a handler, in order: a Telegram
send call, an HTTP geolocation lookup, or a botan tracking call. -/
inductive Effect
  | sendMessage (text : String) (parse_mode : Option String)
  | sendText (text : String)
  | reply (text : String)
  | sendLocation (latitude longitude : String)
  | lookup (url : String)
  | track (uid : Int) (name : String)
  deriving DecidableEq

/-- Whether an effect is a message shown to the user. -/
def isUserSend : Effect → Bool
  | Effect.sendMessage _ _ => true
  | Effect.sendText _ => true
  | Effect.reply _ => true
  | _ => false

/-- Whether an effect is a botan tracking call. -/
def isTrack : Effect → Bool
  | Effect.track _ _ => true
  | _ => false

/-- The tagged outbound message produced by the /geo formatting logic. -/
inductive Outbound
  | text (body : String)
  | location (latitude longitude : String)
  deriving DecidableEq

def IPINFO : String := "https://ipinfo.io/"

def GREETING : String :=
  "Hi! I\x27m ipinfo.io bot and I can give you IP geolocation info about any IP address you send to me.\n\nYou can control me by sending these commands:\n\n/ip {ip} - get infromation about the IP\n/geo {ip} - get location on a map for the IP"

def HELP : String :=
  "This bot allows you to get a simple information about giving IP address. All data provided by http://ipinfo.io/ service."

def REQUIRED_KEYS : List String := ["org", "country", "loc", "city", "hostname"]

/-- One iteration of the `for v in REQUIRED_KEYS` loop of `ip_base`:
`if v not in data.keys(): data[v] = ""`. -/
def fillStep (d : Record) (k : String) : Record :=
  if (lookupRecord d k).isSome then d else d ++ [(k, "")]

/-- The whole defaulting loop of `ip_base`: absent required keys are bound
to the empty string. -/
def fillRequired (d : Record) : Record :=
  REQUIRED_KEYS.foldl fillStep d

/-- `BASE_TEMPLATE.format(**data)`: renders the fixed five-line template;
`none` models the `KeyError` raised when a placeholder key is absent. -/
def renderBaseTemplate (data : Record) : Option String := do
  let ip ← lookupRecord data "ip"
  let hostname ← lookupRecord data "hostname"
  let org ← lookupRecord data "org"
  let country ← lookupRecord data "country"
  let city ← lookupRecord data "city"
  let loc ← lookupRecord data "loc"
  pure ("\n*" ++ ip ++ "*\n\n*Hostname*: " ++ hostname ++ "\n*Network*: " ++ org ++
    "\n*Country*: " ++ country ++ "\n*City*: " ++ city ++
    "\n*Latitude/Longitude*: " ++ loc ++ "\n")

/-- The /ip reply formatting path of `ip_base`: default the required keys,
then render the template. -/
def formatBase (data : Record) : Except PyErr String :=
  match renderBaseTemplate (fillRequired data) with
  | some s => Except.ok s
  | none => Except.error PyErr.keyError

/-- The /geo reply formatting path of `ip_geo`: when `loc` is present,
`loc.split(',')[0]` and `loc.split(',')[1]` become a location payload
(`Except.error` models the `IndexError` when index 1 does not exist);
otherwise the fixed apology text. -/
def formatGeo (record : Record) : Except PyErr Outbound :=
  match lookupRecord record "loc" with
  | some v =>
      match pySplit ',' v.toList with
      | p0 :: p1 :: _ => Except.ok (Outbound.location (String.mk p0) (String.mk p1))
      | _ => Except.error PyErr.indexError
  | none => Except.ok (Outbound.text "Sorry, location is unknown for this address")

def missingArgText : String :=
  "Please provide a valid ipv4 or ipv6 address for this command. Use /help command for examples."

def invalidText (ip : String) : String :=
  "\"" ++ ip ++ "\" is not valid ipv4 or ipv6 address"

/-- The `check_ip` decorator: `match.group(2)` is the optional raw
argument; when it is absent or empty a usage-help message is sent, when it
fails to parse the quoted error reply is sent, and otherwise the wrapped
method runs with the validated address.  (The `except ValueError` clause
also spans the awaited method call, but the wrapped methods raise only
`KeyError` / `IndexError`, never `ValueError`.) -/
def check_ip (method : IPAddr → List Effect × Option PyErr) (arg : Option String) :
    List Effect × Option PyErr :=
  match arg with
  | none => ([Effect.sendMessage missingArgText (some "Markdown")], none)
  | some ip =>
    if ip = "" then ([Effect.sendMessage missingArgText (some "Markdown")], none)
    else
      match ip_address ip with
      | some a => method a
      | none => ([Effect.reply (invalidText ip)], none)

/-- The Telegram chat object of a `sendMessage` response. -/
structure TgChat where
  id : Option Int

/-- The `result` object of a `sendMessage` response. -/
structure TgResult where
  chat : Option TgChat

/-- The JSON response of a Telegram send call, as far as `track_message`
inspects it. -/
structure SendResponse where
  result : Option TgResult

/-- `message.get("result", {}).get("chat", {}).get("id", None)`. -/
def responseChatId (m : SendResponse) : Option Int :=
  match m.result with
  | some r =>
    match r.chat with
    | some c => c.id
    | none => none
  | none => none

/-- Python truthiness of the configured botan token string. -/
def truthyTok : Option String → Bool
  | none => false
  | some t => t ≠ ""

namespace IPInfoIOBot

/-- `track_message`: a botan tracking call happens only when a botan token
is configured (truthy) and a truthy chat id is found in the send-response
metadata; otherwise the method only logs and returns. -/
def track_message (botan_token : Option String) (message : SendResponse) (name : String) :
    List Effect :=
  let uid := responseChatId message
  if truthyTok botan_token then
    match uid with
    | some n => if n ≠ 0 then [Effect.track n name] else []
    | none => []
  else []

/-- The `/ping` handler. -/
def ping : List Effect × Option PyErr := ([Effect.sendText "test pong!"], none)

/-- The `/start` handler (named `greeting` in the source): sends the
`HELP` body and performs no tracking. -/
def greeting (_botan_token : Option String) (_resp : SendResponse) :
    List Effect × Option PyErr :=
  ([Effect.sendMessage HELP (some "Markdown")], none)

/-- The `/help` handler: sends the `GREETING` body, then tracks the send
response under the label "Help". -/
def help (botan_token : Option String) (resp : SendResponse) :
    List Effect × Option PyErr :=
  (Effect.sendMessage GREETING (some "Markdown") :: track_message botan_token resp "Help",
    none)

/-- The body of `ip_base` after validation: full lookup at
`<base>/<address>/json`, default the required keys, render the template,
send it, then track under "Ip". `q` models the geolocation service
(URL to JSON record); `resp` models the transport response to the send. -/
def ip_base_core (botan_token : Option String) (q : String → Record) (resp : SendResponse)
    (ip : IPAddr) : List Effect × Option PyErr :=
  let url := IPINFO ++ (ipStr ip ++ "/json")
  match formatBase (q url) with
  | Except.ok reply =>
      (Effect.lookup url :: Effect.sendMessage reply (some "Markdown") ::
        track_message botan_token resp "Ip", none)
  | Except.error e => ([Effect.lookup url], some e)

/-- The `/ip` handler: `check_ip` wrapping `ip_base_core`. -/
def ip_base (botan_token : Option String) (q : String → Record) (resp : SendResponse)
    (arg : Option String) : List Effect × Option PyErr :=
  check_ip (ip_base_core botan_token q resp) arg

/-- The body of `ip_geo` after validation: geo-only lookup at
`<base>/<address>/geo`, then either a location send or the apology text,
then track under "Ip_Geo". -/
def ip_geo_core (botan_token : Option String) (q : String → Record) (resp : SendResponse)
    (ip : IPAddr) : List Effect × Option PyErr :=
  let url := IPINFO ++ (ipStr ip ++ "/geo")
  match formatGeo (q url) with
  | Except.ok (Outbound.location lat lon) =>
      (Effect.lookup url :: Effect.sendLocation lat lon ::
        track_message botan_token resp "Ip_Geo", none)
  | Except.ok (Outbound.text t) =>
      (Effect.lookup url :: Effect.sendMessage t none ::
        track_message botan_token resp "Ip_Geo", none)
  | Except.error e => ([Effect.lookup url], some e)

/-- The `/geo` handler: `check_ip` wrapping `ip_geo_core`. -/
def ip_geo (botan_token : Option String) (q : String → Record) (resp : SendResponse)
    (arg : Option String) : List Effect × Option PyErr :=
  check_ip (ip_geo_core botan_token q resp) arg

end IPInfoIOBot

/-- A command handler reference, one per entry of the `_commands` table. -/
inductive Handler
  | greeting | help | ping | ip_base | ip_geo
  deriving DecidableEq

/-- A registered pattern: a bare command token (`/start`, `/help`,
`/ping`) or a token followed by an optional captured argument
(`(/ip (.+)|/ip)`, `(/geo (.+)|/geo)`). -/
inductive Pat
  | lit (tok : List Char)
  | withArg (tok : List Char)

/-- The `_commands` table, in registration order. -/
def commands : List (Pat × Handler) :=
  [ (Pat.lit "/start".toList, Handler.greeting),
    (Pat.lit "/help".toList, Handler.help),
    (Pat.lit "/ping".toList, Handler.ping),
    (Pat.withArg "/ip".toList, Handler.ip_base),
    (Pat.withArg "/geo".toList, Handler.ip_geo) ]

/-- Modelled from the spec (§4.2): the aiotg matching rule for one
registered pattern — the command token must appear at the start of the
message, optionally followed by a single whitespace-delimited argument
capturing the remainder of the line; an absent argument group yields a
missing argument rather than a failed match. -/
def matchPat (p : Pat) (text : List Char) : Option (Option (List Char)) :=
  match p with
  | Pat.lit tok => if tok.isPrefixOf text then some none else none
  | Pat.withArg tok =>
      if (tok ++ [' ']).isPrefixOf text && !(text.drop (tok.length + 1)).isEmpty then
        some (some (text.drop (tok.length + 1)))
      else if tok.isPrefixOf text then some none
      else none

/-- Modelled from the spec (§4.2): the router evaluates the registered
patterns in order and the first match wins; `none` when no handler
fires. -/
def dispatch (text : List Char) : Option (Handler × Option (List Char)) :=
  commands.findSome? fun ph => (matchPat ph.1 text).map fun arg => (ph.2, arg)

/-- Runs the handler selected by the router on the extracted argument. -/
def runHandler (botan_token : Option String) (q : String → Record) (resp : SendResponse)
    (h : Handler) (arg : Option String) : List Effect × Option PyErr :=
  match h with
  | Handler.greeting => IPInfoIOBot.greeting botan_token resp
  | Handler.help => IPInfoIOBot.help botan_token resp
  | Handler.ping => IPInfoIOBot.ping
  | Handler.ip_base => IPInfoIOBot.ip_base botan_token q resp arg
  | Handler.ip_geo => IPInfoIOBot.ip_geo botan_token q resp arg

/-! ## Helper lemmas -/

theorem takeWhile_of_not_mem (sep : Char) (l : List Char) (h : sep ∉ l) :
    l.takeWhile (· != sep) = l := by
  induction l with
  | nil => rfl
  | cons c cs ih =>
    simp only [List.mem_cons, not_or] at h
    have hc : (c != sep) = true := by
      simp [bne, Ne.symm h.1]
    simp [List.takeWhile, hc, ih h.2]

theorem pySplit_eq_single (sep : Char) (l : List Char) (h : sep ∉ l) :
    pySplit sep l = [l] := by
  induction l with
  | nil => rfl
  | cons c cs ih =>
    simp only [List.mem_cons, not_or] at h
    rw [pySplit, if_neg (Ne.symm h.1), ih h.2]

theorem pySplit_of_mem (sep : Char) (l : List Char) (h : sep ∈ l) :
    pySplit sep l =
      l.takeWhile (· != sep) :: pySplit sep ((l.dropWhile (· != sep)).drop 1) := by
  induction l with
  | nil => cases h
  | cons c cs ih =>
    by_cases hc : c = sep
    · subst hc
      simp [pySplit, List.takeWhile, List.dropWhile]
    · have hcs : sep ∈ cs := by
        rcases List.mem_cons.mp h with h1 | h1
        · exact absurd h1.symm hc
        · exact h1
      have hbne : (c != sep) = true := by simp [bne, hc]
      rw [pySplit, if_neg hc, ih hcs]
      simp [List.takeWhile, List.dropWhile, hbne]

theorem pySplit_head_exists (sep : Char) (l : List Char) :
    ∃ ps, pySplit sep l = l.takeWhile (· != sep) :: ps := by
  by_cases h : sep ∈ l
  · exact ⟨_, pySplit_of_mem sep l h⟩
  · exact ⟨[], by rw [pySplit_eq_single sep l h, takeWhile_of_not_mem sep l h]⟩

theorem lookupRecord_append (d e : Record) (k : String) :
    lookupRecord (d ++ e) k =
      (lookupRecord d k).orElse fun _ => lookupRecord e k := by
  induction d with
  | nil => simp [lookupRecord, Option.orElse]
  | cons p rest ih =>
    obtain ⟨k₁, v⟩ := p
    by_cases h : k₁ = k
    · simp [lookupRecord, h, Option.orElse]
    · simp [lookupRecord, h, ih]

theorem lookupRecord_fillStep (d : Record) (k k₂ : String) :
    lookupRecord (fillStep d k) k₂ =
      if k₂ = k then some ((lookupRecord d k).getD "") else lookupRecord d k₂ := by
  unfold fillStep
  cases hd : lookupRecord d k with
  | some v =>
    simp only [hd, Option.isSome_some, if_true]
    by_cases hk : k₂ = k
    · subst hk; simp [hd]
    · simp [hk]
  | none =>
    simp only [hd, Option.isSome_none, Bool.false_eq_true, if_false,
      lookupRecord_append]
    by_cases hk : k₂ = k
    · subst hk; simp [hd, lookupRecord, Option.orElse]
    · cases hl : lookupRecord d k₂ <;>
        simp [lookupRecord, Option.orElse, hl, Ne.symm hk, hk]

/-- A trivial wrapped method, used to instantiate `check_ip` at a concrete
handler in closed statements. -/
def noopMethod : IPAddr → List Effect × Option PyErr := fun _ => ([], none)

/-! ## Claims -/

/-- C1, counterexample: a record in which `loc` is present but contains no
comma yields neither a location-kind nor a text-kind message — the index
access raises, so the claimed dichotomy fails as stated. -/
theorem c1_formatGeo_counterexample :
    formatGeo [("loc", "37.4")] = Except.error PyErr.indexError := by decide

/-- C1 (amended): if `loc` is present and contains at least one comma,
`formatGeo` produces a location-kind message whose latitude is the text
before the first comma and whose longitude is the comma-separated
component between the first and second comma; if `loc` is absent it
produces the fixed "location unknown" text message. -/
theorem c1_formatGeo_amended (record : Record) :
    (∀ v, lookupRecord record "loc" = some v → ',' ∈ v.toList →
      formatGeo record = Except.ok (Outbound.location
        (String.mk (v.toList.takeWhile (· != ',')))
        (String.mk (((v.toList.dropWhile (· != ',')).drop 1).takeWhile (· != ','))))) ∧
    (lookupRecord record "loc" = none →
      formatGeo record = Except.ok
        (Outbound.text "Sorry, location is unknown for this address")) := by
  constructor
  · intro v hv hc
    obtain ⟨ps, hps⟩ := pySplit_head_exists ',' ((v.toList.dropWhile (· != ',')).drop 1)
    simp only [formatGeo, hv, pySplit_of_mem ',' v.toList hc, hps]
  · intro hv
    simp only [formatGeo, hv]

/-- C1, witness: the spec example `{"loc": "37.4,-122.1"}` produces the
location message with latitude "37.4" and longitude "-122.1", and a
record without `loc` produces the fixed text message. -/
theorem c1_formatGeo_amended_witness :
    formatGeo [("loc", "37.4,-122.1")] =
      Except.ok (Outbound.location "37.4" "-122.1") ∧
    formatGeo [("hostname", "dns.google")] =
      Except.ok (Outbound.text "Sorry, location is unknown for this address") := by
  constructor
  · exact ((c1_formatGeo_amended [("loc", "37.4,-122.1")]).1 "37.4,-122.1"
      (by decide) (by decide)).trans (by decide)
  · exact (c1_formatGeo_amended [("hostname", "dns.google")]).2 (by decide)

/-- C2: every non-empty raw argument that parses as neither IPv4 nor IPv6
makes `check_ip` send exactly the quoted error reply, with the rejected
input verbatim, and never invoke the wrapped method. -/
theorem c2_invalid_reply (s : String) (hs : s ≠ "") (hv : ip_address s = none)
    (method : IPAddr → List Effect × Option PyErr) :
    check_ip method (some s) =
      ([Effect.reply ("\"" ++ s ++ "\" is not valid ipv4 or ipv6 address")], none) := by
  simp [check_ip, hs, hv, invalidText]

/-- C2, witness: the spec scenario input "256.1.1.1". -/
theorem c2_invalid_reply_witness :
    check_ip noopMethod (some "256.1.1.1") =
      ([Effect.reply "\"256.1.1.1\" is not valid ipv4 or ipv6 address"], none) := by
  exact (c2_invalid_reply "256.1.1.1" (by decide) (by decide) noopMethod).trans (by decide)

/-- C3, counterexample: a record missing all fields (in particular the
`ip` slot, which the defaulting loop does not cover) makes the template
rendering fail with a `KeyError`, so "never fails on missing fields" is
false as stated. -/
theorem c3_formatBase_counterexample :
    formatBase [] = Except.error PyErr.keyError := by decide

/-- C3 (amended): for every record that contains the key `ip`,
`formatBase` substitutes the empty string for each absent required field
in {org, country, loc, city, hostname} and renders the fixed five-line
template without failing. -/
theorem c3_formatBase_amended (data : Record) (ipv : String)
    (h : lookupRecord data "ip" = some ipv) :
    formatBase data = Except.ok
      ("\n*" ++ ipv ++ "*\n\n*Hostname*: " ++ (lookupRecord data "hostname").getD "" ++
        "\n*Network*: " ++ (lookupRecord data "org").getD "" ++
        "\n*Country*: " ++ (lookupRecord data "country").getD "" ++
        "\n*City*: " ++ (lookupRecord data "city").getD "" ++
        "\n*Latitude/Longitude*: " ++ (lookupRecord data "loc").getD "" ++ "\n") := by
  simp [formatBase, renderBaseTemplate, fillRequired, REQUIRED_KEYS, List.foldl,
    lookupRecord_fillStep, h]

/-- C3, witness: a record with only the `ip` key renders with every
required field slot empty. -/
theorem c3_formatBase_amended_witness :
    formatBase [("ip", "8.8.8.8")] = Except.ok
      "\n*8.8.8.8*\n\n*Hostname*: \n*Network*: \n*Country*: \n*City*: \n*Latitude/Longitude*: \n" := by
  exact (c3_formatBase_amended [("ip", "8.8.8.8")] "8.8.8.8" (by decide)).trans (by decide)

/-- C4: the router's table is evaluated in registration order and the
first match wins: "/ip 8.8.8.8" selects exactly the /ip handler with
argument "8.8.8.8", and "/geo" with no argument selects exactly the /geo
handler with a missing argument, whose run then takes the validator's
missing-argument path. -/
theorem c4_router_precedence :
    dispatch "/ip 8.8.8.8".toList = some (Handler.ip_base, some "8.8.8.8".toList) ∧
    dispatch "/geo".toList = some (Handler.ip_geo, none) ∧
    ∀ botan_token q resp, runHandler botan_token q resp Handler.ip_geo none =
      ([Effect.sendMessage missingArgText (some "Markdown")], none) := by
  refine ⟨by decide, by decide, ?_⟩
  intro botan_token q resp
  rfl

/-- C4, witness: the missing-argument conjunct at a concrete bot state. -/
theorem c4_router_precedence_witness :
    runHandler none (fun _ => []) ⟨none⟩ Handler.ip_geo none =
      ([Effect.sendMessage missingArgText (some "Markdown")], none) :=
  c4_router_precedence.2.2 none (fun _ => []) ⟨none⟩

/-- C5: an absent or empty raw argument makes `check_ip` send exactly the
usage-help message (mentioning a valid ipv4/ipv6 address and the /help
command) and never invoke the wrapped method. -/
theorem c5_missing_argument (arg : Option String)
    (h : arg = none ∨ arg = some "")
    (method : IPAddr → List Effect × Option PyErr) :
    check_ip method arg =
      ([Effect.sendMessage missingArgText (some "Markdown")], none) := by
  rcases h with h | h <;> subst h <;> rfl

/-- C5, witness: the absent-argument case. -/
theorem c5_missing_argument_witness :
    check_ip noopMethod none =
      ([Effect.sendMessage missingArgText (some "Markdown")], none) :=
  c5_missing_argument none (Or.inl rfl) noopMethod

/-- C6: on a raw argument that parses, `check_ip` invokes the wrapped
method on exactly the parsed canonical address, with no other effects,
and the downstream /ip lookup URL is built from that address's canonical
string form. -/
theorem c6_valid_passthrough (s : String) (a : IPAddr) (h : ip_address s = some a) :
    (∀ method, check_ip method (some s) = method a) ∧
    (∀ botan_token q resp,
      ((IPInfoIOBot.ip_base botan_token q resp (some s)).1).head? =
        some (Effect.lookup (IPINFO ++ (ipStr a ++ "/json")))) := by
  have hs : s ≠ "" := by
    intro hs
    subst hs
    rw [show ip_address "" = none by decide] at h
    exact Option.noConfusion h
  have hck : ∀ method, check_ip method (some s) = method a := by
    intro method
    simp [check_ip, hs, h]
  refine ⟨hck, ?_⟩
  intro botan_token q resp
  rw [IPInfoIOBot.ip_base, hck]
  rw [IPInfoIOBot.ip_base_core]
  cases hfb : formatBase (q (IPINFO ++ (ipStr a ++ "/json"))) with
  | ok r => simp [hfb]
  | error e => simp [hfb]

/-- C6, witness: "8.8.8.8" parses to the address (8, 8, 8, 8), is handed
through unchanged, and the /ip lookup hits
`https://ipinfo.io/8.8.8.8/json`. -/
theorem c6_valid_passthrough_witness :
    check_ip noopMethod (some "8.8.8.8") = noopMethod (IPAddr.v4 [8, 8, 8, 8]) ∧
    ((IPInfoIOBot.ip_base none (fun _ => []) ⟨none⟩ (some "8.8.8.8")).1).head? =
      some (Effect.lookup "https://ipinfo.io/8.8.8.8/json") := by
  have h := c6_valid_passthrough "8.8.8.8" (IPAddr.v4 [8, 8, 8, 8]) (by decide)
  exact ⟨h.1 noopMethod, (h.2 none (fun _ => []) ⟨none⟩).trans (by decide)⟩

/-- C7: whenever validation fails (missing, empty or unparsable
argument), both /ip and /geo send exactly one user-facing error reply,
perform no geolocation lookup and no tracking call, and let no error
propagate. -/
theorem c7_failure_no_tracking (botan_token : Option String) (q : String → Record)
    (resp : SendResponse) (arg : Option String)
    (h : arg = none ∨ arg = some "" ∨ ∃ s, arg = some s ∧ ip_address s = none) :
    ∃ e, isUserSend e = true ∧
      IPInfoIOBot.ip_base botan_token q resp arg = ([e], none) ∧
      IPInfoIOBot.ip_geo botan_token q resp arg = ([e], none) := by
  rcases h with h | h | ⟨s, hsome, hv⟩
  · subst h
    exact ⟨Effect.sendMessage missingArgText (some "Markdown"), rfl, rfl, rfl⟩
  · subst h
    exact ⟨Effect.sendMessage missingArgText (some "Markdown"), rfl, rfl, rfl⟩
  · subst hsome
    by_cases hse : s = ""
    · subst hse
      exact ⟨Effect.sendMessage missingArgText (some "Markdown"), rfl, rfl, rfl⟩
    · refine ⟨Effect.reply (invalidText s), rfl, ?_, ?_⟩ <;>
        simp [IPInfoIOBot.ip_base, IPInfoIOBot.ip_geo, check_ip, hse, hv]

/-- C7, witness: the invalid address "256.1.1.1" with a configured botan
token still produces a single error reply and neither a lookup nor a
tracking effect on both handlers. -/
theorem c7_failure_no_tracking_witness :
    ∃ e, isUserSend e = true ∧
      IPInfoIOBot.ip_base (some "token") (fun _ => []) ⟨some ⟨some ⟨some 7⟩⟩⟩
        (some "256.1.1.1") = ([e], none) ∧
      IPInfoIOBot.ip_geo (some "token") (fun _ => []) ⟨some ⟨some ⟨some 7⟩⟩⟩
        (some "256.1.1.1") = ([e], none) :=
  c7_failure_no_tracking (some "token") (fun _ => []) ⟨some ⟨some ⟨some 7⟩⟩⟩
    (some "256.1.1.1") (Or.inr (Or.inr ⟨"256.1.1.1", rfl, by decide⟩))

/-- C8: the /start handler sends the `HELP` body with no tracking effect,
while the /help handler sends the `GREETING` body and then performs the
tracking step under the label "Help" — the two message bodies are swapped
relative to the handler names, exactly as the source has it. -/
theorem c8_start_help_swapped (botan_token : Option String) (resp : SendResponse) :
    IPInfoIOBot.greeting botan_token resp =
      ([Effect.sendMessage HELP (some "Markdown")], none) ∧
    IPInfoIOBot.help botan_token resp =
      (Effect.sendMessage GREETING (some "Markdown") ::
        IPInfoIOBot.track_message botan_token resp "Help", none) ∧
    (∀ e ∈ (IPInfoIOBot.greeting botan_token resp).1, isTrack e = false) ∧
    (∀ e ∈ IPInfoIOBot.track_message botan_token resp "Help",
      ∃ uid, e = Effect.track uid "Help") := by
  refine ⟨rfl, rfl, ?_, ?_⟩
  · intro e he
    simp [IPInfoIOBot.greeting] at he
    subst he
    rfl
  · intro e he
    unfold IPInfoIOBot.track_message at he
    cases ht : truthyTok botan_token <;> rw [ht] at he
    · simp at he
    · cases hid : responseChatId resp <;> rw [hid] at he
      · simp at he
      · rename_i n
        by_cases hn : n = 0
        · simp [hn] at he
        · simp [hn] at he
          exact ⟨n, he⟩

/-- C8, witness: with a configured token and an extractable chat id the
/help handler sends `GREETING` then tracks "Help", and /start sends
`HELP` only. -/
theorem c8_start_help_swapped_witness :
    IPInfoIOBot.help (some "token") ⟨some ⟨some ⟨some 7⟩⟩⟩ =
      ([Effect.sendMessage GREETING (some "Markdown"), Effect.track 7 "Help"], none) ∧
    IPInfoIOBot.greeting (some "token") ⟨some ⟨some ⟨some 7⟩⟩⟩ =
      ([Effect.sendMessage HELP (some "Markdown")], none) := by
  have h := c8_start_help_swapped (some "token") ⟨some ⟨some ⟨some 7⟩⟩⟩
  refine ⟨h.2.1.trans ?_, h.1⟩
  rw [show IPInfoIOBot.track_message (some "token") ⟨some ⟨some ⟨some 7⟩⟩⟩ "Help" =
    [Effect.track 7 "Help"] from rfl]

/-- C9: when the geo lookup returns a `loc` value containing no comma,
`ip_geo`'s access to the second comma-separated component fails with an
index error after the lookup but before any message send. -/
theorem c9_loc_without_comma (botan_token : Option String) (q : String → Record)
    (resp : SendResponse) (a : IPAddr) (v : String)
    (hloc : lookupRecord (q (IPINFO ++ (ipStr a ++ "/geo"))) "loc" = some v)
    (hnc : ',' ∉ v.toList) :
    IPInfoIOBot.ip_geo_core botan_token q resp a =
      ([Effect.lookup (IPINFO ++ (ipStr a ++ "/geo"))], some PyErr.indexError) := by
  rw [IPInfoIOBot.ip_geo_core]
  simp only [formatGeo, hloc, pySplit_eq_single ',' v.toList hnc]

/-- C9, witness: a lookup answering `{"loc": "37"}` yields only the
lookup effect and an uncaught index error. -/
theorem c9_loc_without_comma_witness :
    IPInfoIOBot.ip_geo_core none (fun _ => [("loc", "37")]) ⟨none⟩
      (IPAddr.v4 [1, 2, 3, 4]) =
      ([Effect.lookup (IPINFO ++ (ipStr (IPAddr.v4 [1, 2, 3, 4]) ++ "/geo"))],
        some PyErr.indexError) :=
  c9_loc_without_comma none (fun _ => [("loc", "37")]) ⟨none⟩
    (IPAddr.v4 [1, 2, 3, 4]) "37" rfl (by decide)

/-- C10: `track_message` emits a tracking call only when the botan token
is configured (truthy) and a chat id is extracted from the send-response
metadata; in every other case it emits no effect at all — in particular
nothing user-facing — and returns normally. -/
theorem c10_track_gating (botan_token : Option String) (resp : SendResponse)
    (name : String) :
    (∀ e ∈ IPInfoIOBot.track_message botan_token resp name,
      ∃ uid, e = Effect.track uid name ∧ truthyTok botan_token = true ∧
        responseChatId resp = some uid) ∧
    ((truthyTok botan_token = false ∨ responseChatId resp = none) →
      IPInfoIOBot.track_message botan_token resp name = []) ∧
    (∀ e ∈ IPInfoIOBot.track_message botan_token resp name, isUserSend e = false) := by
  unfold IPInfoIOBot.track_message
  cases ht : truthyTok botan_token
  · simp
  · cases hid : responseChatId resp
    · simp
    · rename_i n
      by_cases hn : n = 0
      · simp [hn]
      · refine ⟨?_, ?_, ?_⟩
        · intro e he
          simp [hn] at he
          exact ⟨n, he, rfl, rfl⟩
        · rintro (hc | hc) <;> simp at hc
        · intro e he
          simp [hn] at he
          subst he
          rfl

/-- C10, witness: with no token and no extractable id, no tracking call
is made. -/
theorem c10_track_gating_witness :
    IPInfoIOBot.track_message none ⟨none⟩ "Ip" = [] :=
  (c10_track_gating none ⟨none⟩ "Ip").2.1 (Or.inl rfl)
